import Mathlib

/-!
Verification of the LLM configuration store (`example_backend/llm_config.py`).

The module holds two pieces of process-wide mutable state: the current
system prompt (a string) and `llm_config`, a Python dict of model
parameters. We embed the state as a structure whose `llm_config` field is
an association list in Python dict insertion order, and the operations as
pure state-passing functions. Python values stored in the dict are
embedded as `Value`; float literals are represented exactly as rationals
(the code never performs float arithmetic, it only stores and returns the
values).
-/

/-- A Python value as stored in the configuration dict.  The code performs
no arithmetic on stored values, so float literals are carried exactly as
rationals. -/
inductive Value where
  | float (q : ℚ)
  | int (n : ℤ)
  | str (s : String)
  | bool (b : Bool)
deriving DecidableEq

/-- Python dict lookup `d[k]` on an insertion-ordered association list,
returning `none` when the key is absent. -/
def dictGet? (d : List (String × Value)) (k : String) : Option Value :=
  match d with
  | [] => none
  | p :: rest => if p.1 = k then some p.2 else dictGet? rest k

/-- Python membership test `k in d`. -/
def dictContains (d : List (String × Value)) (k : String) : Bool :=
  match d with
  | [] => false
  | p :: rest => if p.1 = k then true else dictContains rest k

/-- Python assignment `d[k] = v`: overwrite in place when the key exists
(keeping its position), otherwise append at the end. -/
def dictSet (d : List (String × Value)) (k : String) (v : Value) :
    List (String × Value) :=
  match d with
  | [] => [(k, v)]
  | p :: rest => if p.1 = k then (k, v) :: rest else p :: dictSet rest k v

/-- The fixed default system prompt constant `DEFAULT_SYSTEM_PROMPT`. -/
def DEFAULT_SYSTEM_PROMPT : String :=
  "You are a compassionate and professional healthcare AI assistant conducting patient follow-up calls. Your primary goal is to ensure patient well-being and treatment adherence.\n\nCore Responsibilities:\n- Build rapport with warm, personalized greetings\n- Assess current health status and symptom progression\n- Verify medication adherence and address any side effects\n- Schedule or confirm upcoming appointments\n- Document patient concerns and questions\n- Provide clear follow-up instructions\n\nCommunication Style:\n- Use empathetic and patient-centered language\n- Listen actively and acknowledge patient concerns\n- Speak clearly and avoid medical jargon\n- Allow patients to express themselves fully\n- Summarize key points for clarity\n\nKey Areas to Cover:\n1. Personal greeting and rapport building\n2. Current symptom assessment\n3. Medication review and adherence check\n4. Appointment scheduling or confirmation\n5. Address patient questions and concerns\n6. Provide clear next steps and follow-up plan\n\nRemember to maintain HIPAA compliance and patient confidentiality throughout the conversation."

/-- The module's global mutable state: `current_system_prompt` and the
`llm_config` dict. -/
structure ConfigState where
  current_system_prompt : String
  llm_config : List (String × Value)
deriving DecidableEq

/-- The state at process start: module-level initializers of
`current_system_prompt` and `llm_config`. -/
def initialState : ConfigState :=
  { current_system_prompt := DEFAULT_SYSTEM_PROMPT,
    llm_config :=
      [("temperature", Value.float (7/10)),
       ("max_tokens", Value.int 2048),
       ("top_p", Value.float (9/10)),
       ("model", Value.str "gpt-4")] }

/-- `get_system_prompt()`. -/
def get_system_prompt (s : ConfigState) : String :=
  s.current_system_prompt

/-- `set_system_prompt(new_prompt)`: overwrites the global prompt and
returns `True`. -/
def set_system_prompt (new_prompt : String) (s : ConfigState) :
    Bool × ConfigState :=
  (true, { s with current_system_prompt := new_prompt })

/-- `get_llm_config()`: the dict display starting from the
`system_prompt` entry and then splatting `llm_config` into it, exactly as
Python dict-merge does (each splatted entry is assigned in order). -/
def get_llm_config (s : ConfigState) : List (String × Value) :=
  s.llm_config.foldl (fun d p => dictSet d p.1 p.2)
    [("system_prompt", Value.str s.current_system_prompt)]

/-- One iteration of the loop body of `update_llm_config`: assign
`d[key] = value` only when `key in d`. -/
def updStep (d : List (String × Value)) (p : String × Value) :
    List (String × Value) :=
  if dictContains d p.1 then dictSet d p.1 p.2 else d

/-- The whole `for key, value in config_updates.items()` loop of
`update_llm_config`, folded over the update entries in iteration order. -/
def applyUpdates (u d : List (String × Value)) : List (String × Value) :=
  u.foldl updStep d

/-- `update_llm_config(config_updates)`: runs the filtered-assignment loop
and returns `True`. -/
def update_llm_config (config_updates : List (String × Value))
    (s : ConfigState) : Bool × ConfigState :=
  (true, { s with llm_config := applyUpdates config_updates s.llm_config })

/-- `reset_to_default()`: restores the prompt to the default constant and
returns `True`. -/
def reset_to_default (s : ConfigState) : Bool × ConfigState :=
  (true, { s with current_system_prompt := DEFAULT_SYSTEM_PROMPT })

/-- A mutating operation of the store, for stating reachability
invariants. -/
inductive Op where
  | setPrompt (p : String)
  | updateCfg (u : List (String × Value))
  | reset

/-- Apply one mutating operation to the state (discarding the returned
success flag). -/
def applyOp (s : ConfigState) (op : Op) : ConfigState :=
  match op with
  | Op.setPrompt p => (set_system_prompt p s).2
  | Op.updateCfg u => (update_llm_config u s).2
  | Op.reset => (reset_to_default s).2

/-- Run a sequence of mutating operations from a state. -/
def runOps (ops : List Op) (s : ConfigState) : ConfigState :=
  ops.foldl applyOp s

/-- The value the last entry of `u` with key `k` carries, if any: the
value a dict built from `u` would hold at `k`. -/
def updLast? (u : List (String × Value)) (k : String) : Option Value :=
  match u with
  | [] => none
  | p :: rest =>
    match updLast? rest k with
    | some v => some v
    | none => if p.1 = k then some p.2 else none

lemma dictContains_eq_isSome (d : List (String × Value)) (k : String) :
    dictContains d k = (dictGet? d k).isSome := by
  induction d with
  | nil => rfl
  | cons p rest ih =>
    simp only [dictContains, dictGet?]
    split <;> simp [ih]

lemma dictGet?_dictSet_self (d : List (String × Value)) (k : String) (v : Value) :
    dictGet? (dictSet d k v) k = some v := by
  induction d with
  | nil => simp [dictSet, dictGet?]
  | cons p rest ih =>
    simp only [dictSet]
    split
    · simp [dictGet?]
    · rename_i h
      simp [dictGet?, h, ih]

lemma dictGet?_dictSet_ne (d : List (String × Value)) (k : String) (v : Value)
    (k' : String) (h : k ≠ k') :
    dictGet? (dictSet d k v) k' = dictGet? d k' := by
  induction d with
  | nil => simp [dictSet, dictGet?, h]
  | cons p rest ih =>
    simp only [dictSet]
    split
    · rename_i hp
      simp [dictGet?, hp, h]
    · simp only [dictGet?]
      split <;> simp [ih]

lemma dictSet_keys_of_contains (d : List (String × Value)) (k : String) (v : Value)
    (h : dictContains d k = true) :
    (dictSet d k v).map Prod.fst = d.map Prod.fst := by
  induction d with
  | nil => simp [dictContains] at h
  | cons p rest ih =>
    simp only [dictContains] at h
    simp only [dictSet]
    split
    · rename_i hp
      simp [hp]
    · rename_i hp
      rw [if_neg hp] at h
      simp [ih h]

lemma updStep_keys (d : List (String × Value)) (p : String × Value) :
    (updStep d p).map Prod.fst = d.map Prod.fst := by
  unfold updStep
  split
  · exact dictSet_keys_of_contains d p.1 p.2 (by assumption)
  · rfl

lemma applyUpdates_keys (u : List (String × Value)) :
    ∀ d, (applyUpdates u d).map Prod.fst = d.map Prod.fst := by
  induction u with
  | nil => intro d; rfl
  | cons p rest ih =>
    intro d
    have hstep : applyUpdates (p :: rest) d = applyUpdates rest (updStep d p) := rfl
    rw [hstep, ih, updStep_keys]

lemma dictGet?_updStep (d : List (String × Value)) (p : String × Value) (k : String) :
    dictGet? (updStep d p) k =
      if p.1 = k ∧ dictContains d p.1 = true then some p.2 else dictGet? d k := by
  unfold updStep
  by_cases hc : dictContains d p.1 = true
  · rw [if_pos hc]
    by_cases hk : p.1 = k
    · subst hk
      simp [hc, dictGet?_dictSet_self]
    · simp [hk, dictGet?_dictSet_ne d p.1 p.2 k hk]
  · simp [hc]

lemma dictGet?_applyUpdates (u : List (String × Value)) :
    ∀ d k, dictGet? (applyUpdates u d) k =
      (dictGet? d k).map (fun old => (updLast? u k).getD old) := by
  induction u with
  | nil =>
    intro d k
    have hbase : applyUpdates [] d = d := rfl
    rw [hbase]
    cases dictGet? d k <;> rfl
  | cons p rest ih =>
    intro d k
    have hstep : applyUpdates (p :: rest) d = applyUpdates rest (updStep d p) := rfl
    rw [hstep, ih, dictGet?_updStep]
    simp only [updLast?]
    by_cases hk : p.1 = k
    · subst hk
      by_cases hc : dictContains d p.1 = true
      · have hsome : (dictGet? d p.1).isSome := by
          rw [← dictContains_eq_isSome]
          exact hc
        rcases hw : dictGet? d p.1 with _ | w
        · rw [hw] at hsome
          simp at hsome
        · rw [if_pos ⟨rfl, hc⟩]
          cases updLast? rest p.1 <;> simp
      · have hnone : dictGet? d p.1 = none := by
          rcases hw : dictGet? d p.1 with _ | w
          · rfl
          · rw [dictContains_eq_isSome, hw] at hc
            simp at hc
        rw [if_neg (by simp [hc]), hnone]
        rfl
    · rw [if_neg (by simp [hk])]
      cases updLast? rest k <;> simp [hk]

lemma applyOp_keys (s : ConfigState) (op : Op) :
    (applyOp s op).llm_config.map Prod.fst = s.llm_config.map Prod.fst := by
  cases op with
  | setPrompt p => rfl
  | updateCfg u => exact applyUpdates_keys u s.llm_config
  | reset => rfl

lemma runOps_keys (ops : List Op) :
    ∀ s, (runOps ops s).llm_config.map Prod.fst = s.llm_config.map Prod.fst := by
  induction ops with
  | nil => intro s; rfl
  | cons op rest ih =>
    intro s
    have hstep : runOps (op :: rest) s = runOps rest (applyOp s op) := rfl
    rw [hstep, ih, applyOp_keys]

lemma keys_shape (d : List (String × Value))
    (h : d.map Prod.fst = ["temperature", "max_tokens", "top_p", "model"]) :
    ∃ v1 v2 v3 v4,
      d = [("temperature", v1), ("max_tokens", v2), ("top_p", v3), ("model", v4)] := by
  rcases d with _ | ⟨⟨k1, v1⟩, d⟩
  · simp at h
  rcases d with _ | ⟨⟨k2, v2⟩, d⟩
  · simp at h
  rcases d with _ | ⟨⟨k3, v3⟩, d⟩
  · simp at h
  rcases d with _ | ⟨⟨k4, v4⟩, d⟩
  · simp at h
  rcases d with _ | ⟨p5, d⟩
  · refine ⟨v1, v2, v3, v4, ?_⟩
    simp only [List.map_cons, List.map_nil, List.cons.injEq, and_true] at h
    obtain ⟨h1, h2, h3, h4⟩ := h
    simp [h1, h2, h3, h4]
  · simp at h

lemma reachable_shape (ops : List Op) :
    ∃ v1 v2 v3 v4, (runOps ops initialState).llm_config =
      [("temperature", v1), ("max_tokens", v2), ("top_p", v3), ("model", v4)] :=
  keys_shape _ (by rw [runOps_keys]; rfl)

/-- C1: for every update mapping and every store state, `update_llm_config`
returns the success flag, keeps the key set (and order) of `llm_config`
unchanged, and at each key the stored value becomes the supplied value
when the key already exists in `llm_config` and is in the update mapping
(last occurrence wins, no type checking), while every other key keeps its
prior value; keys of the mapping absent from `llm_config` are ignored.
This holds also for the empty mapping and for mappings none of whose keys
match. -/
theorem updateConfig_spec (u : List (String × Value)) (s : ConfigState) :
    (update_llm_config u s).1 = true ∧
    (update_llm_config u s).2.llm_config.map Prod.fst = s.llm_config.map Prod.fst ∧
    ∀ k, dictGet? (update_llm_config u s).2.llm_config k =
      (dictGet? s.llm_config k).map (fun old => (updLast? u k).getD old) := by
  refine ⟨rfl, applyUpdates_keys u s.llm_config, ?_⟩
  intro k
  exact dictGet?_applyUpdates u s.llm_config k

/-- C2: after any sequence of store operations applied to the initial
state, the key set (indeed the ordered key list) of `llm_config` is still
exactly `temperature, max_tokens, top_p, model`. -/
theorem paramKeys_invariant (ops : List Op) :
    (runOps ops initialState).llm_config.map Prod.fst =
      ["temperature", "max_tokens", "top_p", "model"] := by
  rw [runOps_keys]
  rfl

/-- C3: `set_system_prompt X` always returns the success flag and replaces
the stored prompt unconditionally, so a following `get_system_prompt`
returns `X` exactly, from any store state. -/
theorem setPrompt_then_get (X : String) (s : ConfigState) :
    (set_system_prompt X s).1 = true ∧
    get_system_prompt (set_system_prompt X s).2 = X :=
  ⟨rfl, rfl⟩

/-- C4: from any store state — in particular after any prior
`set_system_prompt` with any argument — `reset_to_default` returns the
success flag and a following `get_system_prompt` returns the fixed
default prompt constant. -/
theorem reset_restores_default (s : ConfigState) (X : String) :
    (reset_to_default s).1 = true ∧
    get_system_prompt (reset_to_default s).2 = DEFAULT_SYSTEM_PROMPT ∧
    get_system_prompt (reset_to_default (set_system_prompt X s).2).2 =
      DEFAULT_SYSTEM_PROMPT :=
  ⟨rfl, rfl, rfl⟩

/-- C5: in every reachable store state, the record returned by
`get_llm_config` has exactly the keys `system_prompt, temperature,
max_tokens, top_p, model` — no fewer and no more. -/
theorem getConfig_keys_invariant (ops : List Op) :
    (get_llm_config (runOps ops initialState)).map Prod.fst =
      ["system_prompt", "temperature", "max_tokens", "top_p", "model"] := by
  obtain ⟨v1, v2, v3, v4, h⟩ := reachable_shape ops
  simp only [get_llm_config, h]
  rfl

/-- C6: in the initial state, before any mutating operation,
`get_llm_config` yields temperature 0.7, max_tokens 2048, top_p 0.9,
model "gpt-4" and the default prompt under `system_prompt`, and
`get_system_prompt` returns that same default (float literals carried
exactly as rationals). -/
theorem initial_state_values :
    get_llm_config initialState =
      [("system_prompt", Value.str DEFAULT_SYSTEM_PROMPT),
       ("temperature", Value.float (7/10)),
       ("max_tokens", Value.int 2048),
       ("top_p", Value.float (9/10)),
       ("model", Value.str "gpt-4")] ∧
    get_system_prompt initialState = DEFAULT_SYSTEM_PROMPT :=
  ⟨rfl, rfl⟩

/-- C7: in every reachable store state, updating with the single-entry
mapping `temperature ↦ 0.2` makes `get_llm_config` report temperature 0.2
while `max_tokens`, `top_p` and `model` keep their prior reported
values. -/
theorem updateConfig_temperature_frame (ops : List Op) :
    dictGet? (get_llm_config
        (update_llm_config [("temperature", Value.float (1/5))]
          (runOps ops initialState)).2) "temperature" =
      some (Value.float (1/5)) ∧
    dictGet? (get_llm_config
        (update_llm_config [("temperature", Value.float (1/5))]
          (runOps ops initialState)).2) "max_tokens" =
      dictGet? (get_llm_config (runOps ops initialState)) "max_tokens" ∧
    dictGet? (get_llm_config
        (update_llm_config [("temperature", Value.float (1/5))]
          (runOps ops initialState)).2) "top_p" =
      dictGet? (get_llm_config (runOps ops initialState)) "top_p" ∧
    dictGet? (get_llm_config
        (update_llm_config [("temperature", Value.float (1/5))]
          (runOps ops initialState)).2) "model" =
      dictGet? (get_llm_config (runOps ops initialState)) "model" := by
  obtain ⟨v1, v2, v3, v4, h⟩ := reachable_shape ops
  rcases hq : runOps ops initialState with ⟨p, d⟩
  rw [hq] at h
  simp only at h
  subst h
  exact ⟨rfl, rfl, rfl, rfl⟩

/-- C8: every operation of the store is a total function and every
mutating operation returns the success flag `True` for any input; the
getters always return a value (they are total Lean functions by
construction). -/
theorem all_ops_succeed (s : ConfigState) (X : String)
    (u : List (String × Value)) :
    (set_system_prompt X s).1 = true ∧
    (update_llm_config u s).1 = true ∧
    (reset_to_default s).1 = true :=
  ⟨rfl, rfl, rfl⟩

/-- C10: cross-field frame — `set_system_prompt` and `reset_to_default`
leave `llm_config` unchanged, and `update_llm_config` leaves the stored
system prompt unchanged, for every store state and input. -/
theorem cross_field_frame (s : ConfigState) (X : String)
    (u : List (String × Value)) :
    (set_system_prompt X s).2.llm_config = s.llm_config ∧
    (reset_to_default s).2.llm_config = s.llm_config ∧
    (update_llm_config u s).2.current_system_prompt =
      s.current_system_prompt :=
  ⟨rfl, rfl, rfl⟩
